import Mathlib

/-!
Shallow embedding of the OpenSO2 home-station synchronisation core.

The embedding covers:
- the scan-quality masking logic of MainWindow.update_scan_plot
  (src/OpenSO2UI.py, the np.where over the vstacked threshold mask);
- the sync-window gating and the busy-tick guard of
  MainWindow._station_sync (src/OpenSO2UI.py);
- the Station.sync / Station.pull_status transfer logic
  (src/openso2gui/station.py), with the transport (paramiko SSH/SFTP
  session) abstracted as an explicit record of operation outcomes;
- the spherical destination-point formula calc_end_point
  (src/openso2gui/plume.py) over the real numbers.

Machine floats of the source are modelled as rationals where only order
comparisons matter (the quality mask) and as real numbers for the
trigonometric geodesy.
-/

/-! ## Scan quality filter (MainWindow.update_scan_plot) -/

/-- The four numeric thresholds read from the lo_scd_lim / hi_scd_lim /
lo_int_lim / hi_int_lim widgets. -/
structure QualityLimits where
  min_scd : ℚ
  max_scd : ℚ
  min_intensity : ℚ
  max_intensity : ℚ
deriving DecidableEq

/-- One row of the vstacked mask: the point at which the SO2 value or the
average intensity violates a threshold.  Mirrors
`scan_so2 < lo_scd | scan_so2 > hi_scd | scan_int < lo_int | scan_int > hi_int`. -/
def badPoint (lim : QualityLimits) (v w : ℚ) : Bool :=
  decide (v < lim.min_scd) || decide (v > lim.max_scd) ||
  decide (w < lim.min_intensity) || decide (w > lim.max_intensity)

/-- `np.where(mask, 0, scan_so2)`: elementwise over the paired value and
intensity sequences, a masked position becomes 0, any other position keeps
the original value. -/
def scanQualityFilter (lim : QualityLimits) (values intensities : List ℚ) :
    List ℚ :=
  (values.zip intensities).map (fun p => if badPoint lim p.1 p.2 then 0 else p.1)

/-! ## Sync windows and the orchestrator tick (MainWindow._station_sync) -/

/-- A time-of-day window, start and stop in minutes since midnight
(the widgets are parsed with strptime "%H:%M"). -/
structure SyncWindow where
  start : ℕ
  stop : ℕ
deriving DecidableEq

/-- The sync mode chosen each tick; `off` models the fourth branch of the
if-chain, in which _station_sync returns without starting a pass. -/
inductive SyncMode
  | so2
  | spectra
  | both
  | off
deriving DecidableEq

/-- `sync_so2_flag = sync_so2_start < ts and ts < sync_so2_stop` (and the
same for the spectra window): the source compares with strict inequality
on both ends. -/
def inWindow (w : SyncWindow) (t : ℕ) : Bool :=
  decide (w.start < t) && decide (t < w.stop)

/-- Modelled from the spec words only (for comparison with the source):
membership in the half-open interval [start, stop) used by the spec
scenario notation. -/
def memHalfOpenWindow (w : SyncWindow) (t : ℕ) : Bool :=
  decide (w.start ≤ t) && decide (t < w.stop)

/-- The if-chain of _station_sync assigning sync_mode from the two window
flags. -/
def syncMode (so2w specw : SyncWindow) (t : ℕ) : SyncMode :=
  let so2Flag := inWindow so2w t
  let specFlag := inWindow specw t
  if so2Flag && !specFlag then .so2
  else if !so2Flag && specFlag then .spectra
  else if so2Flag && specFlag then .both
  else .off

/-- Orchestrator state visible to one _station_sync tick:
`threadRunning = Option.none` models the AttributeError path in which no
syncThread attribute exists yet; `passCount` counts syncThread.start()
calls. -/
structure OrchestratorState where
  threadRunning : Option Bool
  passCount : ℕ
deriving DecidableEq

/-- What one tick did. -/
inductive TickResult
  | busySkip
  | idleSkip
  | started (mode : SyncMode)
deriving DecidableEq

/-- One tick of MainWindow._station_sync: if the previous sync thread is
still running the tick returns at once; otherwise the sync mode is
computed and, when it is not `off`, a new pass is started. -/
def stationSyncTick (s : OrchestratorState) (so2w specw : SyncWindow)
    (t : ℕ) : TickResult × OrchestratorState :=
  match s.threadRunning with
  | some true => (.busySkip, s)
  | _ =>
    match syncMode so2w specw t with
    | .off => (.idleSkip, s)
    | m => (.started m, ⟨some true, s.passCount + 1⟩)

/-! ## Station.sync and Station.pull_status (src/openso2gui/station.py)

The paramiko session is abstracted as a record of outcomes: what
ssh_client.connect would do, what os.listdir and sftp.listdir return, and
the outcome of each sftp.get.  Exceptions that the source lets escape are
modelled by the `raised` constructor of `Outcome`. -/

/-- Outcome of ssh_client.connect. -/
inductive ConnectResult
  | ok
  | fail (msg : String)
deriving DecidableEq

/-- Outcome of one sftp.get call inside the fetch loop: success, an
OSError (caught by the inner handler), or a paramiko.SSHException
(caught only by the outer handler). -/
inductive GetResult
  | ok
  | osError
  | sshError (msg : String)
deriving DecidableEq

/-- Outcome of sftp.listdir(remote_dir): a listing, FileNotFoundError, or
a paramiko.SSHException. -/
inductive ListDirResult
  | ok (files : List String)
  | fileNotFound
  | sshError (msg : String)
deriving DecidableEq

/-- The transport behaviour visible to one Station.sync call. -/
structure Transport where
  connectResult : ConnectResult
  local_files : Except String (List String)
  remote_files : ListDirResult
  getResult : String → GetResult

/-- The connection flag of a Station (`self.connected`). -/
structure StationState where
  connected : Bool
deriving DecidableEq

/-- The `[flag, msg]` error pair returned by the station methods. -/
structure SyncErr where
  flag : Bool
  msg : String
deriving DecidableEq

/-- The `(new_fnames, err)` pair returned by Station.sync. -/
structure SyncResult where
  new_fnames : List String
  err : SyncErr
deriving DecidableEq

/-- A call either raises an exception to the caller or returns a value. -/
inductive Outcome (α : Type)
  | raised (msg : String)
  | returned (val : α)
deriving DecidableEq

/-- True when the call let an exception escape to the caller. -/
def Outcome.raisedToCaller {α : Type} : Outcome α → Bool
  | .raised _ => true
  | .returned _ => false

/-- `files_to_sync = [f for f in remote_files if f not in local_files]`. -/
def files_to_sync (remote_files local_files : List String) : List String :=
  remote_files.filter (fun f => !(local_files.contains f))

/-- The per-file download loop of Station.sync.  The first component is
the list of files for which sftp.get was invoked; the second is the
accumulated new_fnames, or the message of an SSHException that aborted
the loop (discarding the accumulator, as the outer handler resets
new_fnames to the empty list). -/
def runFetchLoop (get : String → GetResult) :
    List String → List String × Except String (List String)
  | [] => ([], Except.ok [])
  | f :: rest =>
    match get f with
    | .ok =>
      let r := runFetchLoop get rest
      (f :: r.1, r.2.map (fun l => f :: l))
    | .osError =>
      let r := runFetchLoop get rest
      (f :: r.1, r.2)
    | .sshError m => ([f], Except.error m)

/-- What one Station.sync call returns: the trace of attempted transfers,
the `(new_fnames, err)` pair, and the connection flag afterwards. -/
structure SyncReturn where
  attempted : List String
  result : SyncResult
  state : StationState
deriving DecidableEq

/-- Station.sync.  The reconnect (`if not self.connected: self.connect()`)
happens before the try block, so a connect failure is raised to the
caller; inside the try block, FileNotFoundError from os.listdir and
SSHException anywhere reach the outer handler, which empties new_fnames,
records the error and clears the connection flag, while
FileNotFoundError from sftp.listdir returns an empty success early. -/
def Station.sync (st : StationState) (t : Transport) : Outcome SyncReturn :=
  match (if st.connected then ConnectResult.ok else t.connectResult) with
  | .fail m => .raised m
  | .ok =>
    match t.local_files with
    | .error m => .returned ⟨[], ⟨[], ⟨true, m⟩⟩, ⟨false⟩⟩
    | .ok lfiles =>
      match t.remote_files with
      | .fileNotFound => .returned ⟨[], ⟨[], ⟨false, ""⟩⟩, ⟨true⟩⟩
      | .sshError m => .returned ⟨[], ⟨[], ⟨true, m⟩⟩, ⟨false⟩⟩
      | .ok rfiles =>
        let r := runFetchLoop t.getResult (files_to_sync rfiles lfiles)
        match r.2 with
        | .error m => .returned ⟨r.1, ⟨[], ⟨true, m⟩⟩, ⟨false⟩⟩
        | .ok names => .returned ⟨r.1, ⟨names, ⟨false, ""⟩⟩, ⟨true⟩⟩

/-- Outcome of fetching the remote status file: its single line (as a
character sequence), or a paramiko.SSHException. -/
inductive FetchResult
  | ok (content : List Char)
  | sshError (msg : String)
deriving DecidableEq

/-- Python str.strip(): drop whitespace at both ends of the character
sequence. -/
def stripChars (s : List Char) : List Char :=
  ((s.dropWhile Char.isWhitespace).reverse.dropWhile Char.isWhitespace).reverse

/-- One step of Python str.split(sep): the text before the leftmost
occurrence of the separator, and what follows that occurrence when there
is one. -/
def splitFirst (sep : List Char) : List Char → List Char × Option (List Char)
  | [] => ([], Option.none)
  | c :: cs =>
    if sep.isPrefixOf (c :: cs) then ([], some ((c :: cs).drop sep.length))
    else
      let r := splitFirst sep cs
      (c :: r.1, r.2)

/-- Python str.split(sep) for a nonempty separator, driven by a fuel
counter: each recursive call consumes at least the separator from the
input, so length + 1 steps always suffice and the fuel-0 branch is never
reached on the fuel supplied by pySplit. -/
def splitOnSepFuel (sep : List Char) : ℕ → List Char → List (List Char)
  | 0, s => [s]
  | fuel + 1, s =>
    match splitFirst sep s with
    | (part, Option.none) => [part]
    | (part, some rest) => part :: splitOnSepFuel sep fuel rest

/-- Python str.split(sep) for a nonempty separator. -/
def pySplit (sep s : List Char) : List (List Char) :=
  splitOnSepFuel sep (s.length + 1) s

/-- `r.readline().strip().split(' - ')`. -/
def splitStatusLine (line : List Char) : List (List Char) :=
  pySplit [' ', '-', ' '] (stripChars line)

/-- Station.pull_status.  The reconnect happens before the try block; the
try block catches only paramiko.SSHException, so the ValueError raised by
unpacking a split that does not yield exactly two parts escapes to the
caller. -/
def Station.pull_status (st : StationState) (connectResult : ConnectResult)
    (fetch : FetchResult) :
    Outcome ((List Char × List Char × SyncErr) × StationState) :=
  match (if st.connected then ConnectResult.ok else connectResult) with
  | .fail m => .raised m
  | .ok =>
    match fetch with
    | .sshError m => .returned ((['-'], ['N', '/', 'C'], ⟨true, m⟩), ⟨false⟩)
    | .ok content =>
      match splitStatusLine content with
      | [time, status] => .returned ((time, status, ⟨false, ""⟩), ⟨true⟩)
      | _ => .raised "ValueError"

/-- Success test for one sftp.get outcome, used to describe which files
survive the fetch loop. -/
def getOk (get : String → GetResult) (f : String) : Bool :=
  match get f with
  | .ok => true
  | _ => false

/-- A transport in which every operation succeeds, the local directory
holds file a and the remote directory holds files a and b. -/
def transportAllOk : Transport :=
  ⟨.ok, Except.ok ["a"], ListDirResult.ok ["a", "b"], fun _ => .ok⟩

/-- A transport whose connect attempt is refused. -/
def transportConnRefused : Transport :=
  ⟨.fail "Connection refused", Except.ok [], ListDirResult.ok [], fun _ => .ok⟩

/-- A transport whose remote listing raises an SSHException. -/
def transportListSshFault : Transport :=
  ⟨.ok, Except.ok [], ListDirResult.sshError "SSH session not active", fun _ => .ok⟩

/-- A transport whose connect attempt fails with an authentication error. -/
def transportConnFail2 : Transport :=
  ⟨.fail "Authentication failed", Except.ok [], ListDirResult.ok [], fun _ => .ok⟩

/-- A transport whose remote directory is absent. -/
def transportNoRemoteDir : Transport :=
  ⟨.ok, Except.ok [], ListDirResult.fileNotFound, fun _ => .ok⟩

/-- A transport in which copying file b fails with an OSError while every
other copy succeeds. -/
def transportOneBadFile : Transport :=
  ⟨.ok, Except.ok [], ListDirResult.ok ["a", "b", "c"],
   fun f => if f = "b" then GetResult.osError else GetResult.ok⟩

/-- A transport in which copying file b raises an SSHException after the
copy of file a has already succeeded. -/
def transportMidLoopFault : Transport :=
  ⟨.ok, Except.ok [], ListDirResult.ok ["a", "b", "c"],
   fun f => if f = "b" then GetResult.sshError "Socket is closed" else GetResult.ok⟩

/-! ## Geodesy (src/openso2gui/plume.py), over the real numbers -/

/-- np.radians. -/
noncomputable def radians (x : ℝ) : ℝ := x * (Real.pi / 180)

/-- np.degrees. -/
noncomputable def degrees (x : ℝ) : ℝ := x * (180 / Real.pi)

/-- math.atan2 (the C convention, as used by Python). -/
noncomputable def atan2 (y x : ℝ) : ℝ :=
  if 0 < x then Real.arctan (y / x)
  else if x < 0 ∧ 0 ≤ y then Real.arctan (y / x) + Real.pi
  else if x < 0 ∧ y < 0 then Real.arctan (y / x) - Real.pi
  else if x = 0 ∧ 0 < y then Real.pi / 2
  else if x = 0 ∧ y < 0 then -(Real.pi / 2)
  else 0

/-- calc_end_point: project a destination from start_coords = (lat, lon)
in decimal degrees, a distance in meters and a bearing in degrees
clockwise from north, on a sphere of the given radius (the source default
is 6371000). -/
noncomputable def calc_end_point (start_coords : ℝ × ℝ)
    (distance bearing radius : ℝ) : ℝ × ℝ :=
  let lat := radians start_coords.1
  let lon := radians start_coords.2
  let theta := radians bearing
  let ang_dist := distance / radius
  let end_lat := Real.arcsin
    (Real.sin lat * Real.cos ang_dist +
     Real.cos lat * Real.sin ang_dist * Real.cos theta)
  let end_lon := lon + atan2
    (Real.sin theta * Real.sin ang_dist * Real.cos lat)
    (Real.cos ang_dist - Real.sin lat * Real.sin end_lat)
  (degrees end_lat, degrees end_lon)

/-! ## Helper lemmas -/

theorem mem_files_to_sync (R L : List String) (f : String) :
    f ∈ files_to_sync R L ↔ f ∈ R ∧ f ∉ L := by
  simp [files_to_sync]

theorem runFetchLoop_attempted_subset (get : String → GetResult) :
    ∀ (l : List String) (f : String), f ∈ (runFetchLoop get l).1 → f ∈ l := by
  intro l
  induction l with
  | nil => intro f hf; simp [runFetchLoop] at hf
  | cons a rest ih =>
    intro f hf
    cases hga : get a with
    | ok =>
      simp only [runFetchLoop, hga] at hf
      rcases List.mem_cons.mp hf with h | h
      · exact h ▸ List.mem_cons_self a rest
      · exact List.mem_cons_of_mem a (ih f h)
    | osError =>
      simp only [runFetchLoop, hga] at hf
      rcases List.mem_cons.mp hf with h | h
      · exact h ▸ List.mem_cons_self a rest
      · exact List.mem_cons_of_mem a (ih f h)
    | sshError m =>
      simp only [runFetchLoop, hga, List.mem_singleton] at hf
      exact hf ▸ List.mem_cons_self a rest

theorem runFetchLoop_attempted_all (get : String → GetResult)
    (hnossh : ∀ f m, get f ≠ GetResult.sshError m) :
    ∀ l : List String, (runFetchLoop get l).1 = l := by
  intro l
  induction l with
  | nil => simp [runFetchLoop]
  | cons a rest ih =>
    cases hga : get a with
    | ok => simp [runFetchLoop, hga, ih]
    | osError => simp [runFetchLoop, hga, ih]
    | sshError m => exact absurd hga (hnossh a m)

theorem runFetchLoop_names (get : String → GetResult)
    (hnossh : ∀ f m, get f ≠ GetResult.sshError m) :
    ∀ l : List String,
      (runFetchLoop get l).2 = Except.ok (l.filter (getOk get)) := by
  intro l
  induction l with
  | nil => simp [runFetchLoop]
  | cons a rest ih =>
    cases hga : get a with
    | ok => simp [runFetchLoop, hga, ih, List.filter_cons, getOk, Except.map]
    | osError => simp [runFetchLoop, hga, ih, List.filter_cons, getOk, Except.map]
    | sshError m => exact absurd hga (hnossh a m)

theorem sync_unfold (t : Transport) (L R : List String)
    (hloc : t.local_files = Except.ok L)
    (hrem : t.remote_files = ListDirResult.ok R) :
    Station.sync ⟨true⟩ t =
      (match (runFetchLoop t.getResult (files_to_sync R L)).2 with
       | .error m => Outcome.returned
           ⟨(runFetchLoop t.getResult (files_to_sync R L)).1,
            ⟨[], ⟨true, m⟩⟩, ⟨false⟩⟩
       | .ok names => Outcome.returned
           ⟨(runFetchLoop t.getResult (files_to_sync R L)).1,
            ⟨names, ⟨false, ""⟩⟩, ⟨true⟩⟩) := by
  simp [Station.sync, hloc, hrem]

/-! ## Claims -/

/-- Claim C1: for every local listing L and remote listing R, Station.sync
fetches exactly the filenames in R that are not in L (set difference by
filename only): a transfer is attempted only for names absent locally, a
name present in both listings is never re-transferred, and when no
session-level fault interrupts the loop the attempted set is exactly the
set difference. -/
theorem C1_sync_fetches_diff (st : StationState) (t : Transport)
    (L R : List String) (hconn : st.connected = true)
    (hloc : t.local_files = Except.ok L)
    (hrem : t.remote_files = ListDirResult.ok R)
    (out : SyncReturn) (hout : Station.sync st t = Outcome.returned out) :
    (∀ f, f ∈ out.attempted → f ∈ R ∧ f ∉ L) ∧
    (∀ f, f ∈ L → f ∉ out.attempted) ∧
    ((∀ f m, t.getResult f ≠ GetResult.sshError m) →
      out.attempted = files_to_sync R L) ∧
    (∀ f, f ∈ files_to_sync R L ↔ f ∈ R ∧ f ∉ L) := by
  obtain ⟨c⟩ := st
  have hc : c = true := hconn
  subst hc
  rw [sync_unfold t L R hloc hrem] at hout
  have hatt : out.attempted = (runFetchLoop t.getResult (files_to_sync R L)).1 := by
    split at hout <;> { injection hout with h; rw [← h] }
  refine ⟨?_, ?_, ?_, fun f => mem_files_to_sync R L f⟩
  · intro f hf
    rw [hatt] at hf
    exact (mem_files_to_sync R L f).mp (runFetchLoop_attempted_subset t.getResult _ f hf)
  · intro f hfL hfa
    rw [hatt] at hfa
    exact ((mem_files_to_sync R L f).mp
      (runFetchLoop_attempted_subset t.getResult _ f hfa)).2 hfL
  · intro hnossh
    rw [hatt, runFetchLoop_attempted_all t.getResult hnossh]

/-- Witness for C1 on a concrete transport: local listing [a], remote
listing [a, b]; only b is attempted and fetched. -/
theorem C1_witness :
    Station.sync ⟨true⟩ transportAllOk =
      Outcome.returned ⟨["b"], ⟨["b"], ⟨false, ""⟩⟩, ⟨true⟩⟩ ∧
    (⟨["b"], ⟨["b"], ⟨false, ""⟩⟩, ⟨true⟩⟩ : SyncReturn).attempted =
      files_to_sync ["a", "b"] ["a"] :=
  ⟨rfl,
   (C1_sync_fetches_diff ⟨true⟩ transportAllOk ["a"] ["a", "b"] rfl rfl rfl
      ⟨["b"], ⟨["b"], ⟨false, ""⟩⟩, ⟨true⟩⟩ rfl).2.2.1
     (fun f m => by simp [transportAllOk])⟩

/-- Counterexample to claim C2 as stated: when the transport fails while
establishing the connection, the reconnect happens before the try block of
Station.sync, so the error is raised to the caller instead of being
returned inside the result. -/
theorem C2_counterexample :
    Station.sync ⟨false⟩ transportConnRefused =
      Outcome.raised "Connection refused" ∧
    (Station.sync ⟨false⟩ transportConnRefused).raisedToCaller = true :=
  ⟨rfl, rfl⟩

/-- Claim C2 amended: for a session-level transport error thrown inside
the body of Station.sync (after the session is established), the session
is torn down, the connection flag is cleared, and the error is returned
inside the result; because the flag is cleared, the next call to sync or
pull_status attempts a fresh connect.  An error thrown while establishing
the connection itself, however, is raised to the caller. -/
theorem C2_session_error_in_result (t : Transport) (L : List String)
    (m : String) (hloc : t.local_files = Except.ok L)
    (hrem : t.remote_files = ListDirResult.sshError m)
    (t2 : Transport) (m2 : String)
    (h2 : t2.connectResult = ConnectResult.fail m2) (fetch : FetchResult) :
    Station.sync ⟨true⟩ t = Outcome.returned ⟨[], ⟨[], ⟨true, m⟩⟩, ⟨false⟩⟩ ∧
    Station.sync ⟨false⟩ t2 = Outcome.raised m2 ∧
    Station.pull_status ⟨false⟩ t2.connectResult fetch = Outcome.raised m2 := by
  refine ⟨?_, ?_, ?_⟩
  · simp [Station.sync, hloc, hrem]
  · simp [Station.sync, h2]
  · simp [Station.pull_status, h2]

/-- Witness for the amended C2 on concrete transports. -/
theorem C2_witness :
    Station.sync ⟨true⟩ transportListSshFault =
      Outcome.returned ⟨[], ⟨[], ⟨true, "SSH session not active"⟩⟩, ⟨false⟩⟩ ∧
    Station.sync ⟨false⟩ transportConnFail2 =
      Outcome.raised "Authentication failed" ∧
    Station.pull_status ⟨false⟩ transportConnFail2.connectResult
        (FetchResult.ok "x - y".toList) =
      Outcome.raised "Authentication failed" :=
  C2_session_error_in_result transportListSshFault [] "SSH session not active"
    rfl rfl transportConnFail2 "Authentication failed" rfl
    (FetchResult.ok "x - y".toList)

/-- Claim C5: when the remote directory does not exist, Station.sync
returns an empty new-file list with the error flag false and an empty
message, and the connection stays up. -/
theorem C5_missing_remote_dir (st : StationState) (t : Transport)
    (L : List String) (hconn : st.connected = true)
    (hloc : t.local_files = Except.ok L)
    (hrem : t.remote_files = ListDirResult.fileNotFound) :
    Station.sync st t = Outcome.returned ⟨[], ⟨[], ⟨false, ""⟩⟩, ⟨true⟩⟩ := by
  obtain ⟨c⟩ := st
  have hc : c = true := hconn
  subst hc
  simp [Station.sync, hloc, hrem]

/-- Witness for C5 on a concrete transport. -/
theorem C5_witness :
    Station.sync ⟨true⟩ transportNoRemoteDir =
      Outcome.returned ⟨[], ⟨[], ⟨false, ""⟩⟩, ⟨true⟩⟩ :=
  C5_missing_remote_dir ⟨true⟩ transportNoRemoteDir [] rfl rfl rfl

/-- Claim C6: when no session-level fault occurs, a per-file OSError on
one copy is skipped without aborting the batch: every file of the diff is
attempted, exactly the files whose copy succeeded appear in new_fnames (a
failed file is omitted), and the overall error flag stays false. -/
theorem C6_per_file_failure_skipped (st : StationState) (t : Transport)
    (L R : List String) (hconn : st.connected = true)
    (hloc : t.local_files = Except.ok L)
    (hrem : t.remote_files = ListDirResult.ok R)
    (hnossh : ∀ f m, t.getResult f ≠ GetResult.sshError m) :
    Station.sync st t = Outcome.returned
      ⟨files_to_sync R L,
       ⟨(files_to_sync R L).filter (getOk t.getResult), ⟨false, ""⟩⟩,
       ⟨true⟩⟩ ∧
    (∀ f, t.getResult f = GetResult.osError →
      f ∉ (files_to_sync R L).filter (getOk t.getResult)) := by
  constructor
  · obtain ⟨c⟩ := st
    have hc : c = true := hconn
    subst hc
    rw [sync_unfold t L R hloc hrem,
      runFetchLoop_names t.getResult hnossh,
      runFetchLoop_attempted_all t.getResult hnossh]
  · intro f hos hf
    have hm := List.mem_filter.mp hf
    simp [getOk, hos] at hm

/-- Witness for C6 on a concrete transport: remote files a, b, c, empty
local directory, the copy of b fails with OSError; all three are
attempted, a and c are reported, the error flag is false. -/
theorem C6_witness :
    Station.sync ⟨true⟩ transportOneBadFile =
      Outcome.returned ⟨["a", "b", "c"], ⟨["a", "c"], ⟨false, ""⟩⟩, ⟨true⟩⟩ := by
  have hnossh : ∀ f m, transportOneBadFile.getResult f ≠ GetResult.sshError m := by
    intro f m
    by_cases h : f = "b" <;> simp [transportOneBadFile, h]
  have h := (C6_per_file_failure_skipped ⟨true⟩ transportOneBadFile []
    ["a", "b", "c"] rfl rfl rfl hnossh).1
  exact h

/-- Counterexample to claim C7 as stated: a status file whose single line
lacks the "timestamp - status" separator makes Station.pull_status raise
a ValueError to the caller (the unpacking of the split fails and only
SSHException is caught), instead of returning normally with a warning. -/
theorem C7_counterexample :
    Station.pull_status ⟨true⟩ ConnectResult.ok
        (FetchResult.ok "all good".toList) =
      Outcome.raised "ValueError" ∧
    (Station.pull_status ⟨true⟩ ConnectResult.ok
      (FetchResult.ok "all good".toList)).raisedToCaller = true := by
  refine ⟨by decide, by decide⟩

/-- Claim C7 amended: Station.pull_status handles only a session-level
SSHException (returning time "-", status "N/C" and the error in err, with
the session torn down); a line splitting into exactly two parts around
" - " is parsed and returned normally; a malformed line raises ValueError
to the caller. -/
theorem C7_status_parse (st : StationState) (cr : ConnectResult)
    (m : String) (content time status : List Char)
    (hconn : st.connected = true) :
    (Station.pull_status st cr (FetchResult.sshError m) =
      Outcome.returned ((['-'], ['N', '/', 'C'], ⟨true, m⟩), ⟨false⟩)) ∧
    (splitStatusLine content = [time, status] →
      Station.pull_status st cr (FetchResult.ok content) =
        Outcome.returned ((time, status, ⟨false, ""⟩), ⟨true⟩)) ∧
    ((splitStatusLine content).length ≠ 2 →
      Station.pull_status st cr (FetchResult.ok content) =
        Outcome.raised "ValueError") := by
  obtain ⟨c⟩ := st
  have hc : c = true := hconn
  subst hc
  refine ⟨by simp [Station.pull_status], ?_, ?_⟩
  · intro h
    simp [Station.pull_status, h]
  · intro h
    rcases hsp : splitStatusLine content with _ | ⟨a, rest⟩
    · simp [Station.pull_status, hsp]
    · rcases rest with _ | ⟨b, rest2⟩
      · simp [Station.pull_status, hsp]
      · rcases rest2 with _ | ⟨d, rest3⟩
        · exact absurd (by simp [hsp]) h
        · simp [Station.pull_status, hsp]

/-- Witness for the amended C7 on a concrete well-formed status line. -/
theorem C7_witness :
    Station.pull_status ⟨true⟩ ConnectResult.ok
        (FetchResult.ok "12:00 - Scanning".toList) =
      Outcome.returned
        (("12:00".toList, "Scanning".toList, ⟨false, ""⟩), ⟨true⟩) :=
  (C7_status_parse ⟨true⟩ ConnectResult.ok "down" "12:00 - Scanning".toList
    "12:00".toList "Scanning".toList rfl).2.1 (by decide)

/-- Claim C10: when a session-level fault interrupts the fetch loop of
Station.sync, the returned new_fnames list is empty and the error flag is
set, even when an earlier file in the batch was attempted and its copy
succeeded: files transferred before the fault are not reported. -/
theorem C10_session_fault_discards (st : StationState) (t : Transport)
    (L R : List String) (m f1 : String) (hconn : st.connected = true)
    (hloc : t.local_files = Except.ok L)
    (hrem : t.remote_files = ListDirResult.ok R)
    (herr : (runFetchLoop t.getResult (files_to_sync R L)).2 = Except.error m)
    (hf1att : f1 ∈ (runFetchLoop t.getResult (files_to_sync R L)).1)
    (hf1ok : t.getResult f1 = GetResult.ok) :
    Station.sync st t = Outcome.returned
      ⟨(runFetchLoop t.getResult (files_to_sync R L)).1,
       ⟨[], ⟨true, m⟩⟩, ⟨false⟩⟩ := by
  obtain ⟨c⟩ := st
  have hc : c = true := hconn
  subst hc
  rw [sync_unfold t L R hloc hrem, herr]

/-- Witness for C10 on a concrete transport: the copy of a succeeds, the
copy of b raises an SSHException; attempted is [a, b] but new_fnames is
empty and the error flag is set. -/
theorem C10_witness :
    Station.sync ⟨true⟩ transportMidLoopFault =
      Outcome.returned
        ⟨["a", "b"], ⟨[], ⟨true, "Socket is closed"⟩⟩, ⟨false⟩⟩ := by
  have h := C10_session_fault_discards ⟨true⟩ transportMidLoopFault []
    ["a", "b", "c"] "Socket is closed" "a" rfl rfl rfl (by rfl)
    (by decide) (by rfl)
  exact h

/-- Claim C3: for equal-length value and intensity sequences and any
limits, the scan-quality filter keeps the length, replaces position i
with 0 when the value or intensity at i violates a threshold and keeps
the original value otherwise, and is the identity when every position
satisfies the limits. -/
theorem C3_scan_filter (lim : QualityLimits) (values intensities : List ℚ)
    (h : values.length = intensities.length) :
    (scanQualityFilter lim values intensities).length = values.length ∧
    (∀ (i : ℕ) (v w : ℚ), values[i]? = some v → intensities[i]? = some w →
      (scanQualityFilter lim values intensities)[i]? =
        some (if badPoint lim v w then 0 else v)) ∧
    ((∀ (i : ℕ) (v w : ℚ), values[i]? = some v → intensities[i]? = some w →
        badPoint lim v w = false) →
      scanQualityFilter lim values intensities = values) := by
  induction values generalizing intensities with
  | nil =>
    refine ⟨by simp [scanQualityFilter], ?_, ?_⟩
    · intro i v w hv hw
      simp at hv
    · intro hall
      simp [scanQualityFilter]
  | cons v vs ih =>
    cases intensities with
    | nil => simp at h
    | cons w ws =>
      have hlen : vs.length = ws.length := by simpa using h
      obtain ⟨ih1, ih2, ih3⟩ := ih ws hlen
      have hcons : scanQualityFilter lim (v :: vs) (w :: ws) =
          (if badPoint lim v w then 0 else v) :: scanQualityFilter lim vs ws := by
        simp [scanQualityFilter]
      refine ⟨?_, ?_, ?_⟩
      · rw [hcons]
        simp [ih1]
      · intro i x y hx hy
        cases i with
        | zero =>
          simp only [List.getElem?_cons_zero, Option.some_inj] at hx hy
          subst hx
          subst hy
          rw [hcons]
          simp
        | succ n =>
          simp only [List.getElem?_cons_succ] at hx hy
          rw [hcons]
          simpa using ih2 n x y hx hy
      · intro hall
        have h0 : badPoint lim v w = false := hall 0 v w (by simp) (by simp)
        have htail := ih3 (fun i x y hx hy =>
          hall (i + 1) x y (by simpa using hx) (by simpa using hy))
        rw [hcons, h0, htail]
        simp

/-- Witness for C3 on concrete sequences: limits scd within [0, 100] and
intensity within [10, 1000]; the value -1 and the low-intensity value 50
are masked to 0 while 5 passes through. -/
theorem C3_witness :
    (scanQualityFilter ⟨0, 100, 10, 1000⟩ [5, -1, 50] [20, 20, 5]).length = 3 ∧
    (scanQualityFilter ⟨0, 100, 10, 1000⟩ [5, -1, 50] [20, 20, 5])[1]? =
      some 0 := by
  have h := C3_scan_filter ⟨0, 100, 10, 1000⟩ [5, -1, 50] [20, 20, 5] (by decide)
  constructor
  · rw [h.1]
    rfl
  · have h1 := h.2.1 1 (-1) 20 (by decide) (by decide)
    rw [h1]
    decide

/-- Counterexample to claim C4 as stated: with the SO2 window
[08:00, 18:00) and the spectra window [00:00, 23:59) (times in minutes
since midnight), the wall-clock time 08:00 lies inside both half-open
windows, yet the computed sync mode is spectra-only, not both, because
the source compares with strict inequality on both ends. -/
theorem C4_counterexample :
    memHalfOpenWindow ⟨480, 1080⟩ 480 = true ∧
    memHalfOpenWindow ⟨0, 1439⟩ 480 = true ∧
    syncMode ⟨480, 1080⟩ ⟨0, 1439⟩ 480 ≠ SyncMode.both ∧
    syncMode ⟨480, 1080⟩ ⟨0, 1439⟩ 480 = SyncMode.spectra := by
  decide

/-- Claim C4 amended: with window membership taken as the source computes
it (strictly between start and stop), the per-tick sync mode is both when
the time is strictly inside both windows, so2 or spectra when strictly
inside exactly the corresponding one, and off when inside neither, in
which case the tick returns without error; with SO2 window [08:00, 18:00)
and spectra window [00:00, 23:59), at 20:00 the mode is spectra-only. -/
theorem C4_sync_mode (so2w specw : SyncWindow) (t : ℕ)
    (s : OrchestratorState) (h : s.threadRunning ≠ some true) :
    (syncMode so2w specw t = SyncMode.both ↔
      inWindow so2w t = true ∧ inWindow specw t = true) ∧
    (syncMode so2w specw t = SyncMode.so2 ↔
      inWindow so2w t = true ∧ inWindow specw t = false) ∧
    (syncMode so2w specw t = SyncMode.spectra ↔
      inWindow so2w t = false ∧ inWindow specw t = true) ∧
    (syncMode so2w specw t = SyncMode.off ↔
      inWindow so2w t = false ∧ inWindow specw t = false) ∧
    (syncMode so2w specw t = SyncMode.off →
      stationSyncTick s so2w specw t = (TickResult.idleSkip, s)) ∧
    syncMode ⟨480, 1080⟩ ⟨0, 1439⟩ 1200 = SyncMode.spectra := by
  refine ⟨?_, ?_, ?_, ?_, ?_, by decide⟩
  · cases h1 : inWindow so2w t <;> cases h2 : inWindow specw t <;>
      simp [syncMode, h1, h2]
  · cases h1 : inWindow so2w t <;> cases h2 : inWindow specw t <;>
      simp [syncMode, h1, h2]
  · cases h1 : inWindow so2w t <;> cases h2 : inWindow specw t <;>
      simp [syncMode, h1, h2]
  · cases h1 : inWindow so2w t <;> cases h2 : inWindow specw t <;>
      simp [syncMode, h1, h2]
  · intro hm
    obtain ⟨tr, pc⟩ := s
    rcases tr with _ | b
    · simp [stationSyncTick, hm]
    · rcases b
      · simp [stationSyncTick, hm]
      · exact absurd rfl h

/-- Witness for the amended C4 at the concrete 20:00 scenario. -/
theorem C4_witness :
    syncMode ⟨480, 1080⟩ ⟨0, 1439⟩ 1200 = SyncMode.spectra :=
  (C4_sync_mode ⟨480, 1080⟩ ⟨0, 1439⟩ 1200 ⟨Option.none, 0⟩
    (by decide)).2.2.2.2.2

/-- Claim C8: a timer tick that arrives while the previous sync thread is
still running is a no-op: the tick returns busySkip, the orchestrator
state (including the count of started passes) is unchanged, and no second
pass is started. -/
theorem C8_busy_tick_noop (s : OrchestratorState) (so2w specw : SyncWindow)
    (t : ℕ) (h : s.threadRunning = some true) :
    stationSyncTick s so2w specw t = (TickResult.busySkip, s) := by
  obtain ⟨tr, pc⟩ := s
  have htr : tr = some true := h
  subst htr
  rfl

/-- Witness for C8 at a concrete busy state. -/
theorem C8_witness :
    stationSyncTick ⟨some true, 3⟩ ⟨480, 1080⟩ ⟨0, 1439⟩ 600 =
      (TickResult.busySkip, ⟨some true, 3⟩) :=
  C8_busy_tick_noop ⟨some true, 3⟩ ⟨480, 1080⟩ ⟨0, 1439⟩ 600 rfl

theorem degrees_radians (x : ℝ) : degrees (radians x) = x := by
  unfold degrees radians
  field_simp

theorem atan2_zero_nonneg (x : ℝ) (hx : 0 ≤ x) : atan2 0 x = 0 := by
  unfold atan2
  rcases eq_or_lt_of_le hx with h | h
  · subst h
    simp
  · rw [if_pos h, zero_div, Real.arctan_zero]

/-- Claim C9: for every valid origin coordinate (latitude within
[-90, 90]) and every bearing and sphere radius, projecting a destination
at distance 0 returns the origin exactly. -/
theorem C9_zero_distance (lat lon bearing radius : ℝ)
    (h1 : -90 ≤ lat) (h2 : lat ≤ 90) :
    calc_end_point (lat, lon) 0 bearing radius = (lat, lon) := by
  have hp : (0 : ℝ) < Real.pi / 180 := by positivity
  have hlo : -(Real.pi / 2) ≤ radians lat := by
    unfold radians
    nlinarith
  have hhi : radians lat ≤ Real.pi / 2 := by
    unfold radians
    nlinarith
  have hsq : (0 : ℝ) ≤ 1 - Real.sin (radians lat) * Real.sin (radians lat) := by
    have hs := Real.sin_sq_le_one (radians lat)
    rw [pow_two] at hs
    linarith
  unfold calc_end_point
  simp only [zero_div, Real.sin_zero, Real.cos_zero, mul_one, mul_zero,
    zero_mul, add_zero]
  rw [Real.arcsin_sin hlo hhi]
  rw [atan2_zero_nonneg _ hsq, add_zero, degrees_radians, degrees_radians]

/-- Witness for C9 at a concrete origin, bearing and radius. -/
theorem C9_witness :
    calc_end_point (10, 20) 0 45 6371000 = (10, 20) :=
  C9_zero_distance 10 20 45 6371000 (by norm_num) (by norm_num)
